import Mathlib

/-!
Shallow embedding of the WebXR camera animation importer/exporter addon
(`blender_addon/camera_animation_importer.py`).

Modelling choices:
- Scalars are exact rationals (`ℚ`); the Python source uses binary floats, so
  round-off of the host's float arithmetic is abstracted away, but every
  decimal literal of the source (e.g. the basis quaternion component
  `0.7071068`) is embedded exactly.
- `mathutils.Quaternion` is a scalar-first quadruple `(w, x, y, z)` with the
  Hamilton product; `Quaternion @ Vector` is the sandwich product with the
  conjugate; `Quaternion.inverted()` is the conjugate divided by the squared
  norm.
- Python `int(x)` is truncation toward zero; `round(x, n)` is modelled as
  exact decimal rounding half-to-even.
- Host scene state (current frame, rotation mode) is threaded explicitly
  through the export pipeline; an exception raised while sampling a frame is
  modelled by a sampler returning `none`, which aborts the run exactly where
  the Python exception would propagate out of `_export_animation`.
-/

namespace WebXRAddon

/-- A 3-vector of rational coordinates, standing in for `mathutils.Vector`. -/
structure Vec3 where
  x : ℚ
  y : ℚ
  z : ℚ
deriving DecidableEq, Repr

/-- A quaternion in Blender scalar-first order `(w, x, y, z)`, standing in for
`mathutils.Quaternion`. -/
structure Quat where
  w : ℚ
  x : ℚ
  y : ℚ
  z : ℚ
deriving DecidableEq, Repr

/-- Componentwise vector addition. -/
def vadd (a b : Vec3) : Vec3 := ⟨a.x + b.x, a.y + b.y, a.z + b.z⟩

/-- Componentwise vector subtraction. -/
def vsub (a b : Vec3) : Vec3 := ⟨a.x - b.x, a.y - b.y, a.z - b.z⟩

/-- Scalar multiplication of a vector (`p_converted *= self.scale_factor`). -/
def vscale (s : ℚ) (a : Vec3) : Vec3 := ⟨s * a.x, s * a.y, s * a.z⟩

/-- Componentwise division by a scalar (`p_converted /= self.scale_factor`). -/
def vdiv (a : Vec3) (s : ℚ) : Vec3 := ⟨a.x / s, a.y / s, a.z / s⟩

/-- Hamilton product of quaternions, as computed by `mathutils`' `@`. -/
def qmul (a b : Quat) : Quat :=
  ⟨a.w * b.w - a.x * b.x - a.y * b.y - a.z * b.z,
   a.w * b.x + a.x * b.w + a.y * b.z - a.z * b.y,
   a.w * b.y - a.x * b.z + a.y * b.w + a.z * b.x,
   a.w * b.z + a.x * b.y - a.y * b.x + a.z * b.w⟩

/-- Quaternion conjugate. -/
def qconj (a : Quat) : Quat := ⟨a.w, -a.x, -a.y, -a.z⟩

/-- Squared norm of a quaternion. -/
def qnormSq (a : Quat) : ℚ := a.w ^ 2 + a.x ^ 2 + a.y ^ 2 + a.z ^ 2

/-- `mathutils.Quaternion.inverted()`: conjugate divided by squared norm. -/
def qinv (a : Quat) : Quat :=
  let n := qnormSq a
  ⟨a.w / n, -a.x / n, -a.y / n, -a.z / n⟩

/-- Identity quaternion `(1, 0, 0, 0)`. -/
def qid : Quat := ⟨1, 0, 0, 0⟩

/-- Rotation of a vector by a quaternion (`mathutils` `Quaternion @ Vector`):
the imaginary part of `q ⊗ (0, v) ⊗ conj q`. -/
def qrot (q : Quat) (v : Vec3) : Vec3 :=
  let r := qmul (qmul q ⟨0, v.x, v.y, v.z⟩) (qconj q)
  ⟨r.x, r.y, r.z⟩

/-- The decimal literal `0.7071068` from the source, exactly. -/
def basisComp : ℚ := 7071068 / 10000000

/-- Import basis rotation: `Quaternion((0.7071068, 0.7071068, 0, 0))`, a +90
degree rotation about X (line 205). -/
def basis_rotation : Quat := ⟨basisComp, basisComp, 0, 0⟩

/-- Export basis rotation: `Quaternion((0.7071068, -0.7071068, 0, 0))`, a -90
degree rotation about X (line 418). -/
def basis_rotation_inv : Quat := ⟨basisComp, -basisComp, 0, 0⟩

/-- Import position conversion, the `'BLENDER'` branch of line 199:
`Vector((p.x, -p.z, p.y))`. -/
def importConvertPos (p : Vec3) : Vec3 := ⟨p.x, -p.z, p.y⟩

/-- Import rotation conversion, line 206: `basis_rotation @ q`. -/
def importConvertQuat (q : Quat) : Quat := qmul basis_rotation q

/-- Export position conversion, the `'WEBXR'` branch of line 414:
`Vector((p.x, p.z, -p.y))`. -/
def exportConvertPos (p : Vec3) : Vec3 := ⟨p.x, p.z, -p.y⟩

/-- Export rotation conversion, line 419: `basis_rotation_inv @ q`. -/
def exportConvertQuat (q : Quat) : Quat := qmul basis_rotation_inv q

/-- Python `int(x)` on a real number: truncation toward zero. -/
def pyTrunc (q : ℚ) : Int := if 0 ≤ q then ⌊q⌋ else -⌊-q⌋

/-- Nearest integer with ties to even, the rounding rule of Python `round`. -/
def roundHalfEven (x : ℚ) : Int :=
  let f := ⌊x⌋
  if x - f < 1 / 2 then f
  else if x - f > 1 / 2 then f + 1
  else if f % 2 = 0 then f else f + 1

/-- Python `round(x, n)` modelled as exact decimal rounding half-to-even (the
binary floating-point representation of the source is abstracted away). -/
def pyRound (x : ℚ) (n : Nat) : ℚ := (roundHalfEven (x * 10 ^ n) : ℚ) / 10 ^ n

/-- The `coordinate_system` enum shared by the two operators: `'BLENDER'`
converts between WebXR Y-up and Blender Z-up, `'WEBXR'` keeps coordinates
unchanged. On import `BLENDER` is the spec's WEBXR_TO_HOST direction and
`WEBXR` is KEEP; on export `WEBXR` is HOST_TO_WEBXR and `BLENDER` is KEEP. -/
inductive CoordSystem where
  | BLENDER
  | WEBXR
deriving DecidableEq, Repr

/-- One element of the wire `frames` array: `{"t": float, "q": [x,y,z,w],
"p": [x,y,z] (optional)}`. -/
structure WireFrame where
  t : ℚ
  qx : ℚ
  qy : ℚ
  qz : ℚ
  qw : ℚ
  p : Option Vec3
deriving DecidableEq, Repr

/-- Wire-order quaternion parse of lines 179-184: JSON `[x,y,z,w]` becomes
Blender scalar-first `(w, x, y, z)`. -/
def parseQuat (fd : WireFrame) : Quat := ⟨fd.qw, fd.qx, fd.qy, fd.qz⟩

/-- Position parse of lines 187-193: missing `p` defaults to the origin. -/
def parsePos (fd : WireFrame) : Vec3 := fd.p.getD ⟨0, 0, 0⟩

/-- Import operator options used by the transform core (lines 34-76). -/
structure ImportConfig where
  scale_factor : ℚ
  coordinate_system : CoordSystem
  apply_deltas : Bool
  frame_rate : ℚ
deriving DecidableEq, Repr

/-- Converted (and not yet scaled) position of a frame: lines 196-209. -/
def convertedPosOf (cfg : ImportConfig) (fd : WireFrame) : Vec3 :=
  match cfg.coordinate_system with
  | .BLENDER => importConvertPos (parsePos fd)
  | .WEBXR => parsePos fd

/-- Converted rotation of a frame: lines 196-208. -/
def convertedQuatOf (cfg : ImportConfig) (fd : WireFrame) : Quat :=
  match cfg.coordinate_system with
  | .BLENDER => importConvertQuat (parseQuat fd)
  | .WEBXR => parseQuat fd

/-- Converted and scaled position of a frame: lines 196-212. -/
def scaledPosOf (cfg : ImportConfig) (fd : WireFrame) : Vec3 :=
  vscale cfg.scale_factor (convertedPosOf cfg fd)

/-- Per-frame pose transform of the import loop body, lines 174-229: parse,
coordinate conversion, scale, then optional delta rebasing against the
initial camera pose `(initial_pos, initial_rot)` and the raw first-frame pose
`(q0, p0)` of lines 168-171. Returns `(p_final, q_final)`. -/
def importFramePose (cfg : ImportConfig) (initial_pos : Vec3) (initial_rot : Quat)
    (q0 : Quat) (p0 : Vec3) (fd : WireFrame) : Vec3 × Quat :=
  let q_converted := convertedQuatOf cfg fd
  let p_converted := scaledPosOf cfg fd
  if cfg.apply_deltas then
    let q_delta := qmul (qinv q0) q_converted
    let q_final := qmul initial_rot q_delta
    let p_delta := vsub p_converted p0
    let p_delta_rotated :=
      match cfg.coordinate_system with
      | .BLENDER => qrot initial_rot p_delta
      | .WEBXR => p_delta
    let p_final := vadd initial_pos p_delta_rotated
    (p_final, q_final)
  else
    (p_converted, q_converted)

/-- Frame index of a timestamp, line 176: `int(time * frame_rate) + 1`. -/
def frameNumberOf (cfg : ImportConfig) (t : ℚ) : Int :=
  pyTrunc (t * cfg.frame_rate) + 1

/-- Duration of a clip, line 139: the last frame's timestamp
(`frames[-1]['t']`; the empty case never reaches this code). -/
def clipDuration (frames : List WireFrame) : ℚ :=
  ((frames.getLast?).map WireFrame.t).getD 0

/-- Scene frame range set by the importer, lines 142-144:
`frame_start = 1`, `frame_end = max(int(duration * frame_rate), 1)`. -/
def importFrameRange (cfg : ImportConfig) (frames : List WireFrame) : Int × Int :=
  (1, max (pyTrunc (clipDuration frames * cfg.frame_rate)) 1)

/-- The keyframe writes performed by `_import_animation` (lines 134-240):
one entry per wire frame, carrying the target frame index and the pose
written to both the location and rotation channels. `cam_pos`/`cam_rot` are
the camera's pose before import, read only when `apply_deltas` is set
(lines 147-153). -/
def importAnimation (cfg : ImportConfig) (cam_pos : Vec3) (cam_rot : Quat)
    (frames : List WireFrame) : List (Int × Vec3 × Quat) :=
  match frames with
  | [] => []
  | f0 :: _ =>
    let initial_pos := if cfg.apply_deltas then cam_pos else ⟨0, 0, 0⟩
    let initial_rot := if cfg.apply_deltas then cam_rot else qid
    let q0 := parseQuat f0
    let p0 := parsePos f0
    frames.map fun fd =>
      (frameNumberOf cfg fd.t, importFramePose cfg initial_pos initial_rot q0 p0 fd)

/-- A camera handle returned by `_get_or_create_camera`: the scene's existing
active camera, or a freshly created `WebXR_Camera` object. -/
inductive CameraRef where
  | existing
  | fresh
deriving DecidableEq, Repr

/-- `_get_or_create_camera` (lines 116-132): return the active camera when
`use_existing_camera` is set and one exists; else create a new camera when
`create_camera` is set or no active camera exists; else `None`. -/
def getOrCreateCamera (use_existing_camera create_camera has_scene_camera : Bool) :
    Option CameraRef :=
  if use_existing_camera && has_scene_camera then some .existing
  else if create_camera || !has_scene_camera then some .fresh
  else none

/-- Failure labels of the import `execute` (lines 85-98), following the
spec's error taxonomy. -/
inductive ImportError where
  | MISSING_FRAMES
  | EMPTY_FRAMES
  | TARGET_UNAVAILABLE
deriving DecidableEq, Repr

/-- Operator outcome: `{'FINISHED'}` or `{'CANCELLED'}` with an error. -/
inductive ImportOutcome where
  | FINISHED
  | CANCELLED (e : ImportError)
deriving DecidableEq, Repr

/-- The parsed top level of the input JSON as far as `execute` inspects it:
`framesField = none` models a document whose `frames` key is missing or is
not a list (line 85), `some l` a well-formed frames array. -/
structure ImportInput where
  framesField : Option (List WireFrame)
deriving DecidableEq, Repr

/-- The import `execute` method (lines 78-114) after successful JSON parsing:
validation, camera resolution, then the animation import. Returns the
outcome together with the keyframe writes performed. -/
def importExecute (cfg : ImportConfig)
    (use_existing_camera create_camera has_scene_camera : Bool)
    (cam_pos : Vec3) (cam_rot : Quat) (input : ImportInput) :
    ImportOutcome × List (Int × Vec3 × Quat) :=
  match input.framesField with
  | none => (.CANCELLED .MISSING_FRAMES, [])
  | some frames =>
    if frames.length = 0 then (.CANCELLED .EMPTY_FRAMES, [])
    else
      match getOrCreateCamera use_existing_camera create_camera has_scene_camera with
      | none => (.CANCELLED .TARGET_UNAVAILABLE, [])
      | some _ => (.FINISHED, importAnimation cfg cam_pos cam_rot frames)

/-! ### Export pipeline -/

/-- Fuelled model of Python `range(start, stop, step)` for positive step. -/
def pyRangeAux : Nat → Int → Int → Int → List Int
  | 0, _, _, _ => []
  | fuel + 1, start, stop, step =>
    if start < stop then start :: pyRangeAux fuel (start + step) stop step else []

/-- Python `range(start, stop, step)` as a list, for `step ≥ 1`: the fuel
`(stop - start).toNat` is enough since each element advances by at least 1. -/
def pyRange (start stop step : Int) : List Int :=
  pyRangeAux (stop - start).toNat start stop step

/-- The export `sample_mode` enum (lines 299-308). -/
inductive SampleMode where
  | KEYFRAMES
  | ALL_FRAMES
  | CUSTOM_RATE
deriving DecidableEq, Repr

/-- Export operator options used by the transform core (lines 275-335). -/
structure ExportConfig where
  scale_factor : ℚ
  coordinate_system : CoordSystem
  sample_mode : SampleMode
  custom_sample_rate : Int
  export_position : Bool
deriving DecidableEq, Repr

/-- `_get_frames_to_sample` (lines 472-489). `keyframe_numbers` stands for
the multiset of integer keyframe positions found across all fcurves; the
`KEYFRAMES` branch returns its sorted deduplication (`sorted(set(...))`). -/
def getFramesToSample (cfg : ExportConfig) (keyframe_numbers : List Int)
    (frame_start frame_end : Int) : List Int :=
  match cfg.sample_mode with
  | .KEYFRAMES => keyframe_numbers.toFinset.sort (· ≤ ·)
  | .CUSTOM_RATE => pyRange frame_start (frame_end + 1) cfg.custom_sample_rate
  | .ALL_FRAMES => pyRange frame_start (frame_end + 1) 1

/-- The camera rotation-representation modes relevant to the exporter:
`QUATERNION` and the non-quaternion modes it temporarily switches away
from (lines 390-392). -/
inductive RotMode where
  | QUATERNION
  | XYZ
  | AXIS_ANGLE
deriving DecidableEq, Repr

/-- The shared mutable host state touched by `_export_animation`: the scene's
current frame and the camera's rotation mode. -/
structure SceneState where
  frame_current : Int
  rotation_mode : RotMode
deriving DecidableEq, Repr

/-- One element of the exported `frames` array (lines 428-444). -/
structure ExpFrame where
  t : ℚ
  qx : ℚ
  qy : ℚ
  qz : ℚ
  qw : ℚ
  p : Option Vec3
deriving DecidableEq, Repr

/-- Per-frame record built by the export loop body (lines 398-446) from the
pose `(p, q)` sampled at frame `frame_num`. -/
def exportFrameData (cfg : ExportConfig) (frame_start : Int) (fps : ℚ)
    (frame_num : Int) (p : Vec3) (q : Quat) : ExpFrame :=
  let time := ((frame_num : ℚ) - (frame_start : ℚ)) / fps
  let p_converted :=
    match cfg.coordinate_system with
    | .WEBXR => exportConvertPos p
    | .BLENDER => p
  let q_converted :=
    match cfg.coordinate_system with
    | .WEBXR => exportConvertQuat q
    | .BLENDER => q
  let p_scaled := vdiv p_converted cfg.scale_factor
  { t := pyRound time 4
    qx := pyRound q_converted.x 6
    qy := pyRound q_converted.y 6
    qz := pyRound q_converted.z 6
    qw := pyRound q_converted.w 6
    p := if cfg.export_position then
           some ⟨pyRound p_scaled.x 6, pyRound p_scaled.y 6, pyRound p_scaled.z 6⟩
         else none }

/-- The sampling loop of `_export_animation` (lines 398-446). Each iteration
sets the scene's current frame, then samples the camera pose; `sampler`
returning `none` models an exception raised while sampling, which aborts the
loop at that point with the state as mutated so far (there is no
`try/finally` in the source). -/
def sampleLoop (cfg : ExportConfig) (sampler : Int → Option (Vec3 × Quat))
    (frame_start : Int) (fps : ℚ) :
    List Int → SceneState → Option (List ExpFrame) × SceneState
  | [], st => (some [], st)
  | frame_num :: rest, st =>
    let st1 : SceneState := { st with frame_current := frame_num }
    match sampler frame_num with
    | none => (none, st1)
    | some (p, q) =>
      let fd := exportFrameData cfg frame_start fps frame_num p q
      match sampleLoop cfg sampler frame_start fps rest st1 with
      | (some fds, st2) => (some (fd :: fds), st2)
      | (none, st2) => (none, st2)

/-- `_export_animation` (lines 378-470) restricted to its effect on shared
scene state and the frames it emits: save the current frame and rotation
mode, switch the camera to quaternion mode when needed, run the sampling
loop, and restore state — but only on the successful path, exactly as in the
source (restoration at lines 448-451 is skipped when the loop raises). -/
def exportAnimation (cfg : ExportConfig) (sampler : Int → Option (Vec3 × Quat))
    (frames_to_sample : List Int) (frame_start : Int) (fps : ℚ)
    (st : SceneState) : Option (List ExpFrame) × SceneState :=
  let original_frame := st.frame_current
  let original_rotation_mode := st.rotation_mode
  let needs_quaternion_conversion := st.rotation_mode ≠ RotMode.QUATERNION
  let st1 : SceneState :=
    if needs_quaternion_conversion then { st with rotation_mode := .QUATERNION } else st
  match sampleLoop cfg sampler frame_start fps frames_to_sample st1 with
  | (none, st2) => (none, st2)
  | (some fds, st2) =>
    let st3 : SceneState := { st2 with frame_current := original_frame }
    let st4 : SceneState :=
      if needs_quaternion_conversion then { st3 with rotation_mode := original_rotation_mode }
      else st3
    (some fds, st4)

/-! ### Concrete test inputs -/

/-- The two-frame clip of the spec's import test:
`[{t:0,q:[0,0,0,1],p:[0,0,0]}, {t:1,q:[0,0,0,1],p:[1,0,0]}]`. -/
def twoFrameClip : List WireFrame :=
  [⟨0, 0, 0, 0, 1, some ⟨0, 0, 0⟩⟩, ⟨1, 0, 0, 0, 1, some ⟨1, 0, 0⟩⟩]

/-- Import configuration: scale 1, convert to host (Blender) coordinates, no
deltas, 30 fps. -/
def hostImportCfg : ImportConfig := ⟨1, .BLENDER, false, 30⟩

/-- Import configuration for the delta-rebasing test: scale 1, convert to
host coordinates, deltas on, 30 fps. -/
def deltaImportCfg : ImportConfig := ⟨1, .BLENDER, true, 30⟩

/-- A wire frame whose converted position is `(6,0,0)`: identity rotation,
position `[6,0,0]` (the Y/Z swap fixes the X axis, so it stays `(6,0,0)`). -/
def deltaTestFrame : WireFrame := ⟨0, 0, 0, 0, 1, some ⟨6, 0, 0⟩⟩

end WebXRAddon

namespace WebXRAddon

/-! ### Theorems -/

/-- C9: for every position vector and every scale factor `f > 0`, the import
scale step (`p *= f`, line 212) followed by the export scale step (`p /= f`,
line 425) returns the original vector, exactly. -/
theorem c9_scale_roundtrip (p : Vec3) (f : ℚ) (hf : 0 < f) :
    vdiv (vscale f p) f = p := by
  cases p with
  | mk x y z =>
    simp [vdiv, vscale, mul_div_cancel_left₀, hf.ne']

/-- Witness for C9 at `p = (1,2,3)`, `f = 2`. -/
theorem c9_scale_roundtrip_witness :
    (0 : ℚ) < 2 ∧ vdiv (vscale 2 ⟨1, 2, 3⟩) 2 = ⟨1, 2, 3⟩ :=
  ⟨by norm_num, c9_scale_roundtrip ⟨1, 2, 3⟩ 2 (by norm_num)⟩

/-- C10: `_get_or_create_camera` never returns `None` when `create_camera`
is set, and returns `None` exactly when `create_camera` is false, the scene
has an active camera, and `use_existing_camera` is false — the only
configuration in which the TARGET_UNAVAILABLE cancellation of `execute`
(lines 96-98) is reachable, as the third conjunct states at the `execute`
level for any non-empty frames list. -/
theorem c10_camera_resolution :
    (∀ u h, (getOrCreateCamera u true h).isSome = true) ∧
    (∀ u c h, getOrCreateCamera u c h = none ↔ (c = false ∧ h = true ∧ u = false)) ∧
    (∀ (cfg : ImportConfig) (u c h : Bool) (cp : Vec3) (cr : Quat)
       (fd : WireFrame) (rest : List WireFrame),
      (importExecute cfg u c h cp cr ⟨some (fd :: rest)⟩).1 =
          ImportOutcome.CANCELLED .TARGET_UNAVAILABLE ↔
        (c = false ∧ h = true ∧ u = false)) := by
  refine ⟨by decide, by decide, ?_⟩
  intro cfg u c h cp cr fd rest
  cases u <;> cases c <;> cases h <;>
    simp [importExecute, getOrCreateCamera]

/-- C7: when the JSON lacks a `frames` array (or it is not a list), or the
`frames` array is empty, `execute` cancels with the MISSING_FRAMES
respectively EMPTY_FRAMES error and writes no keyframes (lines 85-92). -/
theorem c7_missing_or_empty_frames (cfg : ImportConfig)
    (u c h : Bool) (cp : Vec3) (cr : Quat) :
    importExecute cfg u c h cp cr ⟨none⟩ =
      (ImportOutcome.CANCELLED .MISSING_FRAMES, []) ∧
    importExecute cfg u c h cp cr ⟨some []⟩ =
      (ImportOutcome.CANCELLED .EMPTY_FRAMES, []) :=
  ⟨rfl, rfl⟩

/-- C4: importing the two-frame test clip at 30 fps with host coordinate
conversion and scale 1 writes exactly two keyframes per channel, at frame
indices 1 and 31, with positions `(0,0,0)` and `(1,0,0)` unchanged. -/
theorem c4_two_frame_import :
    (importAnimation hostImportCfg ⟨0, 0, 0⟩ qid twoFrameClip).map Prod.fst = [1, 31] ∧
    (importAnimation hostImportCfg ⟨0, 0, 0⟩ qid twoFrameClip).map (fun w => w.2.1) =
      [⟨0, 0, 0⟩, ⟨1, 0, 0⟩] ∧
    (importAnimation hostImportCfg ⟨0, 0, 0⟩ qid twoFrameClip).length = 2 := by
  refine ⟨?_, ?_, rfl⟩ <;>
    norm_num [importAnimation, twoFrameClip, hostImportCfg, frameNumberOf,
      importFramePose, scaledPosOf, convertedPosOf, convertedQuatOf,
      importConvertPos, importConvertQuat, parsePos, parseQuat, vscale, qid,
      pyTrunc, Vec3.mk.injEq]

/-- C5: import with the WEBXR_TO_HOST conversion (the `'BLENDER'` branch)
maps wire position `[1,0,0]` to host position `(1,0,0)` and `[0,1,0]` to
`(0,0,1)`, through the whole per-frame transform at scale 1 without
deltas. -/
theorem c5_position_conversion (t qx qy qz qw : ℚ) :
    (importFramePose hostImportCfg ⟨0, 0, 0⟩ qid qid ⟨0, 0, 0⟩
       ⟨t, qx, qy, qz, qw, some ⟨1, 0, 0⟩⟩).1 = ⟨1, 0, 0⟩ ∧
    (importFramePose hostImportCfg ⟨0, 0, 0⟩ qid qid ⟨0, 0, 0⟩
       ⟨t, qx, qy, qz, qw, some ⟨0, 1, 0⟩⟩).1 = ⟨0, 0, 1⟩ := by
  constructor <;>
    simp [importFramePose, hostImportCfg, scaledPosOf, convertedPosOf,
      importConvertPos, parsePos, vscale, Vec3.mk.injEq]

/-- C6: the imported scene frame range is `[1, max(1, ⌊duration·rate⌋)]`
where `duration` is the last frame's timestamp; in particular the end frame
is clamped to at least 1, so zero-duration clips are not errors. -/
theorem c6_frame_range (cfg : ImportConfig) (frames : List WireFrame)
    (hd : 0 ≤ clipDuration frames) (hr : 0 ≤ cfg.frame_rate) :
    importFrameRange cfg frames =
      (1, max 1 ⌊clipDuration frames * cfg.frame_rate⌋) ∧
    1 ≤ (importFrameRange cfg frames).2 := by
  have hnn : 0 ≤ clipDuration frames * cfg.frame_rate := mul_nonneg hd hr
  constructor
  · simp [importFrameRange, pyTrunc, hnn, max_comm]
  · simp [importFrameRange]

/-- Witness for C6 on a single-frame zero-duration clip at 30 fps: the frame
range is `(1, 1)`. -/
theorem c6_frame_range_witness :
    importFrameRange hostImportCfg [⟨0, 0, 0, 0, 1, none⟩] =
      (1, max 1 ⌊clipDuration [⟨0, 0, 0, 0, 1, none⟩] * hostImportCfg.frame_rate⌋) ∧
    1 ≤ (importFrameRange hostImportCfg [⟨0, 0, 0, 0, 1, none⟩]).2 :=
  c6_frame_range hostImportCfg [⟨0, 0, 0, 0, 1, none⟩] (by decide) (by decide)

/-- Bounding lemma for the C1 rotation round-trip: multiplying a component
of magnitude at most 1 by `2 * basisComp ^ 2` moves it by at most `1e-5`
(the exact defect of the source's truncated `0.7071068` literal is about
`5.3e-8`). -/
theorem basis_roundtrip_component_bound (t : ℚ) (h2 : t ^ 2 ≤ 1) :
    |2 * basisComp ^ 2 * t - t| ≤ 1 / 100000 := by
  have ht : |t| ≤ 1 := by
    rw [abs_le]
    constructor <;> nlinarith
  have heq : 2 * basisComp ^ 2 * t - t = (2 * basisComp ^ 2 - 1) * t := by ring
  rw [heq, abs_mul]
  have hc : |2 * basisComp ^ 2 - 1| = 2 * basisComp ^ 2 - 1 :=
    abs_of_nonneg (by norm_num [basisComp])
  calc |2 * basisComp ^ 2 - 1| * |t| ≤ |2 * basisComp ^ 2 - 1| * 1 :=
        mul_le_mul_of_nonneg_left ht (abs_nonneg _)
    _ = |2 * basisComp ^ 2 - 1| := mul_one _
    _ ≤ 1 / 100000 := by rw [hc]; norm_num [basisComp]

/-- C1: converting a pose WEBXR_TO_HOST (import) and then HOST_TO_WEBXR
(export) returns the original position exactly and the original unit
rotation quaternion within `1e-5` per component — the two basis quaternions
are built from the truncated literal `0.7071068`, so their composition is
`2·0.7071068²·q ≈ 1.0000001·q`, not exactly `q`. -/
theorem c1_convert_roundtrip (p : Vec3) (q : Quat) (hq : qnormSq q = 1) :
    exportConvertPos (importConvertPos p) = p ∧
    |(exportConvertQuat (importConvertQuat q)).w - q.w| ≤ 1 / 100000 ∧
    |(exportConvertQuat (importConvertQuat q)).x - q.x| ≤ 1 / 100000 ∧
    |(exportConvertQuat (importConvertQuat q)).y - q.y| ≤ 1 / 100000 ∧
    |(exportConvertQuat (importConvertQuat q)).z - q.z| ≤ 1 / 100000 := by
  have hwE : (exportConvertQuat (importConvertQuat q)).w = 2 * basisComp ^ 2 * q.w := by
    simp [exportConvertQuat, importConvertQuat, qmul, basis_rotation, basis_rotation_inv]
    ring
  have hxE : (exportConvertQuat (importConvertQuat q)).x = 2 * basisComp ^ 2 * q.x := by
    simp [exportConvertQuat, importConvertQuat, qmul, basis_rotation, basis_rotation_inv]
    ring
  have hyE : (exportConvertQuat (importConvertQuat q)).y = 2 * basisComp ^ 2 * q.y := by
    simp [exportConvertQuat, importConvertQuat, qmul, basis_rotation, basis_rotation_inv]
    ring
  have hzE : (exportConvertQuat (importConvertQuat q)).z = 2 * basisComp ^ 2 * q.z := by
    simp [exportConvertQuat, importConvertQuat, qmul, basis_rotation, basis_rotation_inv]
    ring
  have hnorm : q.w ^ 2 + q.x ^ 2 + q.y ^ 2 + q.z ^ 2 = 1 := hq
  refine ⟨?_, ?_, ?_, ?_, ?_⟩
  · cases p with
    | mk x y z => simp [exportConvertPos, importConvertPos]
  · rw [hwE]
    exact basis_roundtrip_component_bound q.w (by nlinarith [sq_nonneg q.x, sq_nonneg q.y, sq_nonneg q.z])
  · rw [hxE]
    exact basis_roundtrip_component_bound q.x (by nlinarith [sq_nonneg q.w, sq_nonneg q.y, sq_nonneg q.z])
  · rw [hyE]
    exact basis_roundtrip_component_bound q.y (by nlinarith [sq_nonneg q.w, sq_nonneg q.x, sq_nonneg q.z])
  · rw [hzE]
    exact basis_roundtrip_component_bound q.z (by nlinarith [sq_nonneg q.w, sq_nonneg q.x, sq_nonneg q.y])

/-- Witness for C1 at `p = (1,2,3)` and the identity quaternion. -/
theorem c1_convert_roundtrip_witness :
    qnormSq qid = 1 ∧
    (exportConvertPos (importConvertPos ⟨1, 2, 3⟩) = ⟨1, 2, 3⟩ ∧
     |(exportConvertQuat (importConvertQuat qid)).w - qid.w| ≤ 1 / 100000 ∧
     |(exportConvertQuat (importConvertQuat qid)).x - qid.x| ≤ 1 / 100000 ∧
     |(exportConvertQuat (importConvertQuat qid)).y - qid.y| ≤ 1 / 100000 ∧
     |(exportConvertQuat (importConvertQuat qid)).z - qid.z| ≤ 1 / 100000) :=
  ⟨by norm_num [qnormSq, qid],
   c1_convert_roundtrip ⟨1, 2, 3⟩ qid (by norm_num [qnormSq, qid])⟩

/-- C3: with `apply_deltas` set, the final rotation is
`initialRotation ∘ (firstFrameRotation⁻¹ ∘ convertedRotation)` and the final
position is `initialPosition + D` with `D` the difference of the converted
(and scaled) position from the first-frame position, rotated by the initial
rotation exactly when the coordinate mode converts (is not KEEP). -/
theorem c3_delta_rebasing (cfg : ImportConfig) (ip : Vec3) (ir : Quat)
    (q0 : Quat) (p0 : Vec3) (fd : WireFrame) (h : cfg.apply_deltas = true) :
    (importFramePose cfg ip ir q0 p0 fd).2 =
      qmul ir (qmul (qinv q0) (convertedQuatOf cfg fd)) ∧
    (importFramePose cfg ip ir q0 p0 fd).1 =
      vadd ip (if cfg.coordinate_system = CoordSystem.BLENDER then
                 qrot ir (vsub (scaledPosOf cfg fd) p0)
               else vsub (scaledPosOf cfg fd) p0) := by
  cases hcs : cfg.coordinate_system <;> simp [importFramePose, h, hcs]

/-- Witness for C3: `initialPosition = (0,0,0)`, `initialRotation` identity,
`firstFramePosition = (5,0,0)`, a frame whose converted position is
`(6,0,0)` — the final position is `(1,0,0)`. -/
theorem c3_delta_rebasing_witness :
    (importFramePose deltaImportCfg ⟨0, 0, 0⟩ qid qid ⟨5, 0, 0⟩ deltaTestFrame).1 =
      ⟨1, 0, 0⟩ := by
  rw [(c3_delta_rebasing deltaImportCfg ⟨0, 0, 0⟩ qid qid ⟨5, 0, 0⟩ deltaTestFrame rfl).2]
  norm_num [deltaImportCfg, deltaTestFrame, scaledPosOf, convertedPosOf,
    importConvertPos, parsePos, vscale, vsub, vadd, qrot, qmul, qconj, qid,
    Vec3.mk.injEq]

/-- Membership in the fuelled Python `range` model, for positive step and
sufficient fuel: exactly the integers of `[start, stop)` that differ from
`start` by a multiple of `step`. -/
theorem pyRangeAux_mem (step : Int) (hstep : 1 ≤ step) :
    ∀ (fuel : Nat) (start stop x : Int), stop - start ≤ (fuel : Int) →
      (x ∈ pyRangeAux fuel start stop step ↔
        start ≤ x ∧ x < stop ∧ step ∣ (x - start)) := by
  intro fuel
  induction fuel with
  | zero =>
    intro start stop x hfuel
    simp only [pyRangeAux, List.not_mem_nil, false_iff]
    rintro ⟨h1, h2, -⟩
    omega
  | succ n ih =>
    intro start stop x hfuel
    simp only [pyRangeAux]
    by_cases hlt : start < stop
    · rw [if_pos hlt, List.mem_cons, ih (start + step) stop x (by omega)]
      constructor
      · rintro (rfl | ⟨h1, h2, h3⟩)
        · exact ⟨le_refl x, hlt, by simp⟩
        · refine ⟨by omega, h2, ?_⟩
          have hx : x - start = (x - (start + step)) + step := by ring
          rw [hx]
          exact dvd_add h3 dvd_rfl
      · rintro ⟨h1, h2, k, hk⟩
        rcases lt_trichotomy k 0 with hk0 | hk0 | hk0
        · exfalso
          have hneg : step * k ≤ step * (-1) :=
            mul_le_mul_of_nonneg_left (by omega) (by omega)
          linarith
        · rw [hk0, mul_zero] at hk
          left
          omega
        · right
          have hge : step * 1 ≤ step * k :=
            mul_le_mul_of_nonneg_left (by omega) (by omega)
          refine ⟨by linarith, h2, ⟨k - 1, ?_⟩⟩
          have h4 : x - (start + step) = (x - start) - step := by ring
          rw [h4, hk]
          ring
    · rw [if_neg hlt]
      simp only [List.not_mem_nil, false_iff]
      rintro ⟨h1, h2, -⟩
      omega

/-- Membership in the Python `range(start, stop, step)` model for
`step ≥ 1`. -/
theorem pyRange_mem (start stop step x : Int) (hstep : 1 ≤ step) :
    x ∈ pyRange start stop step ↔ start ≤ x ∧ x < stop ∧ step ∣ (x - start) :=
  pyRangeAux_mem step hstep _ start stop x (Int.self_le_toNat _)

/-- C8: frame selection under `CUSTOM_RATE` returns exactly every
`customStride`-th integer from `frame_start` through `frame_end` inclusive,
`ALL_FRAMES` returns every integer of that interval, and the concrete case
`frameStart=1, frameEnd=10, stride=3` returns `[1,4,7,10]`. -/
theorem c8_select_frames (sf : ℚ) (cs : CoordSystem) (ep : Bool) (st : Int)
    (kfs : List Int) (s e x : Int) (hst : 1 ≤ st) :
    (x ∈ getFramesToSample ⟨sf, cs, .CUSTOM_RATE, st, ep⟩ kfs s e ↔
      s ≤ x ∧ x ≤ e ∧ st ∣ (x - s)) ∧
    (x ∈ getFramesToSample ⟨sf, cs, .ALL_FRAMES, st, ep⟩ kfs s e ↔
      s ≤ x ∧ x ≤ e) ∧
    getFramesToSample ⟨sf, cs, .CUSTOM_RATE, 3, ep⟩ kfs 1 10 = [1, 4, 7, 10] := by
  refine ⟨?_, ?_, ?_⟩
  · rw [show getFramesToSample ⟨sf, cs, .CUSTOM_RATE, st, ep⟩ kfs s e =
        pyRange s (e + 1) st from rfl, pyRange_mem s (e + 1) st x hst]
    constructor
    · rintro ⟨h1, h2, h3⟩
      exact ⟨h1, by omega, h3⟩
    · rintro ⟨h1, h2, h3⟩
      exact ⟨h1, by omega, h3⟩
  · rw [show getFramesToSample ⟨sf, cs, .ALL_FRAMES, st, ep⟩ kfs s e =
        pyRange s (e + 1) 1 from rfl, pyRange_mem s (e + 1) 1 x le_rfl]
    constructor
    · rintro ⟨h1, h2, -⟩
      exact ⟨h1, by omega⟩
    · rintro ⟨h1, h2⟩
      exact ⟨h1, by omega, one_dvd _⟩
  · show pyRange 1 11 3 = [1, 4, 7, 10]
    decide

/-- Witness for C8 at stride 3, range `[1, 10]`, probe `x = 4`. -/
theorem c8_select_frames_witness :
    ((4 : Int) ∈ getFramesToSample ⟨1, .WEBXR, .CUSTOM_RATE, 3, true⟩ [] 1 10 ↔
      (1 : Int) ≤ 4 ∧ (4 : Int) ≤ 10 ∧ (3 : Int) ∣ (4 - 1)) ∧
    ((4 : Int) ∈ getFramesToSample ⟨1, .WEBXR, .ALL_FRAMES, 3, true⟩ [] 1 10 ↔
      (1 : Int) ≤ 4 ∧ (4 : Int) ≤ 10) ∧
    getFramesToSample ⟨1, .WEBXR, .CUSTOM_RATE, 3, true⟩ [] 1 10 = [1, 4, 7, 10] :=
  c8_select_frames 1 .WEBXR true 3 [] 1 10 4 (by norm_num)

/-- The sampling loop never touches the camera's rotation mode: only
`scene.frame_set` is called inside it. -/
theorem sampleLoop_rotation_mode (cfg : ExportConfig)
    (sampler : Int → Option (Vec3 × Quat)) (fs : Int) (fps : ℚ) :
    ∀ (l : List Int) (st : SceneState),
      ((sampleLoop cfg sampler fs fps l st).2).rotation_mode = st.rotation_mode := by
  intro l
  induction l with
  | nil => intro st; rfl
  | cons f rest ih =>
    intro st
    simp only [sampleLoop]
    cases hs : sampler f with
    | none => rfl
    | some pq =>
      obtain ⟨p, q⟩ := pq
      have h2 := ih { st with frame_current := f }
      rcases hrec : sampleLoop cfg sampler fs fps rest { st with frame_current := f } with ⟨r, st2⟩
      rw [hrec] at h2
      cases r <;> simp only [hrec] <;> exact h2

/-- C2 (amended): when `_export_animation` completes successfully, the
scene's current frame and the camera's rotation mode are restored to their
pre-export values. (The error path does not restore them; see the
counterexample.) -/
theorem c2_state_restored_on_success (cfg : ExportConfig)
    (sampler : Int → Option (Vec3 × Quat)) (frames : List Int)
    (fs : Int) (fps : ℚ) (st : SceneState) (fds : List ExpFrame)
    (st2 : SceneState)
    (h : exportAnimation cfg sampler frames fs fps st = (some fds, st2)) :
    st2.frame_current = st.frame_current ∧ st2.rotation_mode = st.rotation_mode := by
  by_cases hq : st.rotation_mode = RotMode.QUATERNION
  · have hmode := sampleLoop_rotation_mode cfg sampler fs fps frames st
    rcases hloop : sampleLoop cfg sampler fs fps frames st with ⟨r, stL⟩
    rw [hloop] at hmode
    simp only [exportAnimation, hq, ne_eq, not_true_eq_false, if_false, ite_false] at h
    rw [hloop] at h
    cases r with
    | none => simp at h
    | some fds2 =>
      simp only [Prod.mk.injEq] at h
      rw [← h.2]
      exact ⟨rfl, by rw [hmode, hq]⟩
  · have hmode := sampleLoop_rotation_mode cfg sampler fs fps frames
      { st with rotation_mode := RotMode.QUATERNION }
    rcases hloop : sampleLoop cfg sampler fs fps frames
        { st with rotation_mode := RotMode.QUATERNION } with ⟨r, stL⟩
    rw [hloop] at hmode
    simp only [exportAnimation, hq, ne_eq, not_false_eq_true, if_true, ite_true] at h
    rw [hloop] at h
    cases r with
    | none => simp at h
    | some fds2 =>
      simp only [Prod.mk.injEq] at h
      rw [← h.2]
      exact ⟨rfl, rfl⟩

/-- Witness for C2 (amended) on a successful zero-frame export run starting
at frame 7 in Euler XYZ mode. -/
theorem c2_state_restored_on_success_witness :
    (⟨7, RotMode.XYZ⟩ : SceneState).frame_current =
      (⟨7, RotMode.XYZ⟩ : SceneState).frame_current ∧
    (⟨7, RotMode.XYZ⟩ : SceneState).rotation_mode =
      (⟨7, RotMode.XYZ⟩ : SceneState).rotation_mode :=
  c2_state_restored_on_success ⟨1, .WEBXR, .ALL_FRAMES, 1, true⟩
    (fun _ => some (⟨0, 0, 0⟩, qid)) [] 1 24 ⟨7, RotMode.XYZ⟩ [] ⟨7, RotMode.XYZ⟩
    (by decide)

/-- Counterexample to C2 as stated: a run that terminates on an error raised
during frame sampling (the sampler fails at frame 5) leaves the scene at the
failing frame with the rotation mode forced to quaternion — neither the
playback position nor the rotation mode is restored, because the source has
no `try/finally` around the sampling loop. -/
theorem c2_counterexample :
    (exportAnimation ⟨1, .WEBXR, .ALL_FRAMES, 1, true⟩ (fun _ => none) [5] 1 24
        ⟨1, RotMode.XYZ⟩).1 = none ∧
    ((exportAnimation ⟨1, .WEBXR, .ALL_FRAMES, 1, true⟩ (fun _ => none) [5] 1 24
        ⟨1, RotMode.XYZ⟩).2).rotation_mode ≠ RotMode.XYZ ∧
    ((exportAnimation ⟨1, .WEBXR, .ALL_FRAMES, 1, true⟩ (fun _ => none) [5] 1 24
        ⟨1, RotMode.XYZ⟩).2).frame_current ≠ 1 := by
  decide

end WebXRAddon
